import Mathlib

/-
  Verification of the snapper salt execution module
  (src/srv/salt/_modules/snapper.py) against its specification.

  The dbus snapper service, the filesystem, the pwd user database and the
  external command runner are external collaborators; they are modelled as
  explicit parameters (result lists, oracle functions, environments).
  Python dicts are modelled as insertion-ordered association lists with
  overwrite-on-existing-key semantics, Python sets as Finset String, and
  raised exceptions as Option/Except values.
-/

namespace Snapper

/-- Python dict assignment d[k] = v on an insertion-ordered dict modelled as
an association list: overwrite the value if the key is present, otherwise
append the new binding at the end. -/
def dictInsert {α : Type} (d : List (String × α)) (k : String) (v : α) :
    List (String × α) :=
  if (d.map Prod.fst).contains k then
    d.map (fun kv => if kv.1 == k then (k, v) else kv)
  else d ++ [(k, v)]

/-- The raw positional snapshot record returned by the dbus service
(fields in positional order: snapshot[0] .. snapshot[7]). -/
structure RawSnapshot where
  num : Nat
  typeIdx : Nat
  preNum : Nat
  timestamp : Int
  uid : Nat
  description : String
  cleanup : String
  userdata : List (String × String)
deriving DecidableEq

/-- The structured snapshot data built by the decoder (the dict returned by
the python function, with absent keys modelled as Option none). -/
structure SnapshotData where
  id : Nat
  type : String
  pre : Option Nat
  timestamp : Int
  user : String
  description : String
  cleanup : String
  userdata : List (String × String)
deriving DecidableEq

/-- The list indexed by the snapshot type code, line 44 of snapper.py. -/
def typeNames : List String := ["single", "pre", "post"]

/-- snapper.py lines 40 to 61, the function named with a leading underscore
that turns a raw record into structured data. The pwd user lookup and the
wall clock are external: resolveUser models getpwuid (none models a raised
KeyError) and now models time.time(). An out-of-range type index (a python
IndexError) is also modelled as none. -/
def snapshot_to_data (resolveUser : Nat → Option String) (now : Int)
    (s : RawSnapshot) : Option SnapshotData :=
  match typeNames.get? s.typeIdx, resolveUser s.uid with
  | some ty, some user =>
      some { id := s.num
             type := ty
             pre := if ty == "post" then some s.preNum else none
             timestamp := if s.timestamp != -1 then s.timestamp else now
             user := user
             description := s.description
             cleanup := s.cleanup
             userdata := s.userdata }
  | _, _ => none

/-- snapper.py lines 176 to 181: the numeric status decoder (a dict lookup
with default unknown). -/
def status_to_string (status : Int) : String :=
  if status == 2 then "deleted"
  else if status == 8 then "modified"
  else if status == 1 then "created"
  else if status == 16 then "path"
  else "unknown"

/-! ## create_snapshot (snapper.py lines 204 to 269) -/

/-- The module-level mutable state: the single default dict object bound to
the userdata keyword default at function definition time. Python evaluates
the default expression once, so all calls that omit the argument share this
object and mutations on it persist across calls. -/
structure ModuleState where
  defaultUserdata : List (String × String)
deriving DecidableEq

/-- The request forwarded to the dbus service by create_snapshot
(CreateSingleSnapshot, CreatePreSnapshot or CreatePostSnapshot). -/
inductive CreateRequest
  | single (description : Option String) (cleanup : String)
      (userdata : List (String × String))
  | pre (description : Option String) (cleanup : String)
      (userdata : List (String × String))
  | post (pre_number : Nat) (description : Option String) (cleanup : String)
      (userdata : List (String × String))
deriving DecidableEq

/-- Outcome of create_snapshot before the service answers: either a request
is sent to the service, or a CommandExecutionError is raised first. -/
inductive CreateOutcome
  | request (call : CreateRequest)
  | raised (msg : String)
deriving DecidableEq

/-- snapper.py lines 204 to 269. Arguments userdata (omitted modelled as
none) and the salt job id taken from kwargs. Returns the new module state
(the shared default dict object after any in-place mutation) together with
the outcome. Mirrors the source order: description defaulting, then the
in-place userdata mutation, then the type dispatch. -/
def create_snapshot (st : ModuleState) (type : String) (pre_number : Option Nat)
    (description : Option String) (cleanup_algorithm : String)
    (userdata : Option (List (String × String))) (jid : Option String) :
    ModuleState × CreateOutcome :=
  let description : Option String :=
    match description, jid with
    | none, some j => some ("salt job " ++ j)
    | d, _ => d
  let ud0 : List (String × String) :=
    match userdata with
    | some u => u
    | none => st.defaultUserdata
  let ud : List (String × String) :=
    match jid with
    | some j => dictInsert ud0 "salt_jid" j
    | none => ud0
  let st : ModuleState :=
    match userdata, jid with
    | none, some _ => { defaultUserdata := ud }
    | _, _ => st
  if type == "single" then
    (st, CreateOutcome.request (CreateRequest.single description cleanup_algorithm ud))
  else if type == "pre" then
    (st, CreateOutcome.request (CreateRequest.pre description cleanup_algorithm ud))
  else if type == "post" then
    match pre_number with
    | none => (st, CreateOutcome.raised "pre snapshot number needs to be specified")
    | some n =>
        (st, CreateOutcome.request (CreateRequest.post n description cleanup_algorithm ud))
  else (st, CreateOutcome.raised "invalid snapshot type")

/-! ## Interval resolution (snapper.py lines 171 to 173 and 272 to 275) -/

/-- snapper.py lines 171 to 173: sort the decoded snapshot list by id
(python sorted is a stable ascending sort, modelled by mergeSort) and take
the last element; the python IndexError on indexing an empty list is
modelled as none. -/
def get_last_snapshot (snapshots : List SnapshotData) : Option SnapshotData :=
  (snapshots.mergeSort (fun a b => a.id ≤ b.id)).getLast?

/-- Python truthiness of an optional integer argument: None and 0 are both
falsy, every other integer is truthy. -/
def truthy : Option Nat → Bool
  | none => false
  | some n => n != 0

/-- snapper.py lines 272 to 275: resolve the optional num_pre and num_post
arguments to a concrete pair, defaulting post to 0 and pre to the last
snapshot of the configuration. The conditional expressions test python
truthiness, not presence. -/
def get_num_interval (snapshots : List SnapshotData)
    (num_pre num_post : Option Nat) : Option (Nat × Nat) :=
  let post : Nat := if truthy num_post then num_post.getD 0 else 0
  if truthy num_pre then some (num_pre.getD 0, post)
  else
    match get_last_snapshot snapshots with
    | some s => some (s.id, post)
    | none => none

/-! ## Job correlation (snapper.py lines 414 to 421) -/

/-- The local variable jid_snapshots of snapper.py lines 415 to 416: the
snapshots whose userdata dict carries the salt_jid key with the given
value (a dict get with default False, which never equals a string jid). -/
def jidFilter (snapshots : List SnapshotData) (jid : String) :
    List SnapshotData :=
  snapshots.filter (fun x => x.userdata.lookup "salt_jid" == some jid)

/-- snapper.py lines 418 to 421: take the id of the first pre-typed and the
first post-typed snapshot among the job-tagged ones. Indexing an empty
filter result (a python IndexError) is modelled as none. -/
def get_jid_snapshots (snapshots : List SnapshotData) (jid : String) :
    Option (Nat × Nat) :=
  match (jidFilter snapshots jid).filter (fun x => x.type == "pre"),
        (jidFilter snapshots jid).filter (fun x => x.type == "post") with
  | p :: _, q :: _ => some (p.id, q.id)
  | _, _ => none

/-! ## status, changed_files and undo
(snapper.py lines 322 to 354, 357 to 377 and 380 to 411) -/

/-- The dict built in snapper.py lines 346 to 348 from the GetFiles result:
for each (path, code) pair the assignment status[path] = code. -/
def statusDict (files : List (String × Int)) : List (String × Int) :=
  files.foldl (fun d kv => dictInsert d kv.1 kv.2) []

/-- snapper.py lines 322 to 354: resolve the interval, request the service
comparison (CreateComparison, a side effect on the service) and build the
path to raw status code dict from the GetFiles answer. The service is
modelled by the getFiles oracle; a failed interval resolution (raised
CommandExecutionError) is modelled as none. -/
def status (snapshots : List SnapshotData)
    (getFiles : Nat → Nat → List (String × Int))
    (num_pre num_post : Option Nat) : Option (List (String × Int)) :=
  (get_num_interval snapshots num_pre num_post).map
    (fun pq => statusDict (getFiles pq.1 pq.2))

/-- snapper.py lines 357 to 377: the key list of the status dict. -/
def changed_files (snapshots : List SnapshotData)
    (getFiles : Nat → Nat → List (String × Int))
    (num_pre num_post : Option Nat) : Option (List String) :=
  (status snapshots getFiles num_pre num_post).map (fun d => d.map Prod.fst)

/-- What undo does after building the requested set: either a raised
CommandExecutionError carrying the offending set, or one invocation of the
external snapper undochange command over the range pre..post restricted to
the requested set of paths (python sets are modelled as Finset String). -/
inductive UndoOutcome
  | validationError (offending : Finset String)
  | execute (pre post : Nat) (requested : Finset String)
deriving DecidableEq

/-- snapper.py lines 380 to 411, up to the external command invocation:
resolve the interval, recompute the change set via status (passing the
already-resolved integers back through it, as the source does), default
the requested set to the whole changed set when the files argument is None
or an empty list (python falsiness of both), and validate the subset
relation strictly before any executor call. -/
def undo (snapshots : List SnapshotData)
    (getFiles : Nat → Nat → List (String × Int))
    (files : Option (List String)) (num_pre num_post : Option Nat) :
    Option UndoOutcome :=
  match get_num_interval snapshots num_pre num_post with
  | none => none
  | some (pre, post) =>
    match status snapshots getFiles (some pre) (some post) with
    | none => none
    | some changes =>
      let changed : Finset String := (changes.map Prod.fst).toFinset
      let requested : Finset String :=
        match files with
        | none => changed
        | some fs => if fs.isEmpty then changed else fs.toFinset
      some (if ¬ requested ⊆ changed then
              UndoOutcome.validationError (changed \ requested)
            else UndoOutcome.execute pre post requested)

/-! ## diff (snapper.py lines 278 to 280 and 444 to 497) -/

/-- External environment of diff: the live and mounted filesystems and the
external helpers. isfile models os.path.isfile; readlines models reading a
whole file (none models a raised read error); is_text_file models the
file -bi content sniff of snapper.py lines 278 to 280; mountRoot models
the path returned by the MountSnapshot dbus call; unified_diff models
difflib.unified_diff joined into a single string (python standard library,
external to the module). -/
structure DiffEnv where
  isfile : String → Bool
  readlines : String → Option (List String)
  is_text_file : String → Bool
  mountRoot : Nat → String
  unified_diff : List String → List String → String → String → String

/-- The mount and unmount dbus calls issued by diff, in order. -/
inductive SnapperCall
  | mount (num : Nat)
  | umount (num : Nat)
deriving DecidableEq

/-- One conditional whole-file read, snapper.py lines 480 and 481: read the
lines when the path is a regular file, else treat the content as empty; a
read failure propagates as an exception carrying the path. -/
def diffRead (env : DiffEnv) (path : String) : Except String (List String) :=
  if env.isfile path then
    match env.readlines path with
    | some content => Except.ok content
    | none => Except.error path
  else Except.ok []

/-- The per-file loop of snapper.py lines 476 to 487 over the candidate
paths that exist as regular files in the live tree, accumulating the
files_diff dict; the first exception aborts the loop. A diff entry is
recorded when the post side is sniffed as text or the post content is
empty. -/
def diffLoop (env : DiffEnv) (pre_mount post_mount : String) :
    List String → List (String × String) →
      Except String (List (String × String))
  | [], files_diff => Except.ok files_diff
  | f :: rest, files_diff =>
    match diffRead env (pre_mount ++ f) with
    | Except.error e => Except.error e
    | Except.ok pre_content =>
      match diffRead env (post_mount ++ f) with
      | Except.error e => Except.error e
      | Except.ok post_content =>
        diffLoop env pre_mount post_mount rest
          (if env.is_text_file (post_mount ++ f) || post_content.isEmpty then
            dictInsert files_diff f
              (env.unified_diff pre_content post_content
                (pre_mount ++ f) (post_mount ++ f))
          else files_diff)

/-- snapper.py lines 468 to 497 after interval resolution and candidate
computation (files is the single filename or the changed_files result):
mount pre, mount post when post is nonzero (a post of 0 means the live
filesystem and yields the empty mount prefix), run the loop, and unmount
only on the successful path, exactly as in the source, where the unmount
calls at lines 489 to 491 are skipped when an exception propagates out of
the loop. The first component records the mount and unmount dbus calls in
order. -/
def diff (env : DiffEnv) (pre post : Nat) (files : List String) :
    List SnapperCall × Except String (List (String × String)) :=
  let pre_mount := env.mountRoot pre
  let post_mount := if post != 0 then env.mountRoot post else ""
  let mountCalls :=
    SnapperCall.mount pre ::
      (if post != 0 then [SnapperCall.mount post] else [])
  match diffLoop env pre_mount post_mount (files.filter env.isfile) [] with
  | Except.ok files_diff =>
      (mountCalls ++ SnapperCall.umount pre ::
        (if post != 0 then [SnapperCall.umount post] else []),
       Except.ok files_diff)
  | Except.error e => (mountCalls, Except.error e)

/-! ## run (snapper.py lines 283 to 319) -/

/-- The snapshot bookkeeping visible to run: the next number the service
will assign and the list of created snapshots as triples of number, type
and referenced pre number. -/
structure RunState where
  nextNr : Nat
  created : List (Nat × String × Option Nat)
deriving DecidableEq

/-- The state right after the pre snapshot creation of snapper.py lines
301 to 307. -/
def runPreState (st : RunState) : RunState :=
  { nextNr := st.nextNr + 1,
    created := st.created ++ [(st.nextNr, "pre", none)] }

/-- snapper.py lines 283 to 319: create the pre snapshot, call the wrapped
execution function fn (which may mutate the state and either return a
value or raise), and create the post snapshot referencing the pre number
only when fn returns normally; an exception from fn propagates without any
handler. -/
def run (st : RunState) (fn : RunState → RunState × Except String Nat) :
    RunState × Except String Nat :=
  let pre_nr := st.nextNr
  match fn (runPreState st) with
  | (st2, Except.error e) => (st2, Except.error e)
  | (st2, Except.ok ret) =>
      ({ nextNr := st2.nextNr + 1,
         created := st2.created ++ [(st2.nextNr, "post", some pre_nr)] },
       Except.ok ret)

end Snapper

namespace Snapper

/-- Helper: the last element of a list is a member of the list. -/
theorem mem_of_getLast_eq_some {α : Type} {l : List α} {s : α}
    (h : l.getLast? = some s) : s ∈ l := by
  rcases List.mem_getLast?_eq_getLast (Option.mem_def.mpr h) with ⟨hne, rfl⟩
  exact List.getLast_mem hne

/-- Helper: in a list that is pairwise related by R, every member is either
the last element or related to it. -/
theorem getLast_rel_of_pairwise {α : Type} {R : α → α → Prop} :
    ∀ {l : List α} {s : α}, l.Pairwise R → l.getLast? = some s →
      ∀ t ∈ l, t = s ∨ R t s := by
  intro l
  induction l with
  | nil => intro s _ hl t ht; simp at ht
  | cons a l ih =>
    intro s hp hl t ht
    cases l with
    | nil =>
      simp at hl ht
      subst hl
      subst ht
      exact Or.inl rfl
    | cons b m =>
      rw [List.getLast?_cons_cons] at hl
      have hs : s ∈ b :: m := mem_of_getLast_eq_some hl
      rcases List.mem_cons.mp ht with rfl | htm
      · exact Or.inr ((List.pairwise_cons.mp hp).1 s hs)
      · exact ih (List.pairwise_cons.mp hp).2 hl t htm

/-- Helper: the snapshot selected by get_last_snapshot belongs to the list
and has the maximum id. -/
theorem get_last_snapshot_spec (snapshots : List SnapshotData)
    (s : SnapshotData) (h : get_last_snapshot snapshots = some s) :
    s ∈ snapshots ∧ ∀ t ∈ snapshots, t.id ≤ s.id := by
  unfold get_last_snapshot at h
  have hperm := List.mergeSort_perm snapshots (fun a b => a.id ≤ b.id)
  have hmem : s ∈ snapshots.mergeSort (fun a b => a.id ≤ b.id) :=
    mem_of_getLast_eq_some h
  have hsorted : List.Pairwise (fun a b : SnapshotData => a.id ≤ b.id)
      (snapshots.mergeSort (fun a b => a.id ≤ b.id)) := by
    have hs := @List.sorted_mergeSort SnapshotData
      (fun a b => decide (a.id ≤ b.id))
      (fun a b c hab hbc =>
        decide_eq_true (Nat.le_trans (of_decide_eq_true hab) (of_decide_eq_true hbc)))
      (fun a b => by
        rcases Nat.le_total a.id b.id with hle | hle <;> simp [hle])
      snapshots
    exact hs.imp (fun hab => of_decide_eq_true hab)
  constructor
  · exact hperm.mem_iff.mp hmem
  · intro t htmem
    have ht : t ∈ snapshots.mergeSort (fun a b => a.id ≤ b.id) :=
      hperm.mem_iff.mpr htmem
    rcases getLast_rel_of_pairwise hsorted h t ht with rfl | hle
    · exact Nat.le_refl _
    · exact hle

/-- A concrete snapshot with id 5, used to exercise interval resolution. -/
def snapFive : SnapshotData :=
  { id := 5, type := "single", pre := none, timestamp := 0, user := "root",
    description := "", cleanup := "number", userdata := [] }

/-- Claim C6 counterexample: with a single snapshot of id 5 in the
configuration, an explicitly supplied num_pre of 0 is not used verbatim:
python truthiness treats the integer 0 like an absent argument, and the
interval resolves to (5, 0) instead of the verbatim (0, 0). -/
theorem get_num_interval_zero_pre_cex :
    get_num_interval [snapFive] (some 0) none = some (5, 0) ∧
    get_num_interval [snapFive] (some 0) none ≠ some (0, 0) := by
  have h : get_num_interval [snapFive] (some 0) none = some (5, 0) := by
    simp [get_num_interval, truthy, get_last_snapshot, List.mergeSort, snapFive]
  exact ⟨h, by rw [h]; simp⟩

/-- Claim C6 as amended: absent num_post resolves to 0; absent num_pre
resolves to the id of the snapshot with the maximum id (failing when the
configuration has no snapshots); explicitly supplied truthy values are used
verbatim without existence validation, and an explicit num_post of 0 also
yields 0 verbatim; but an explicit num_pre of 0 is treated like an absent
argument and resolves to the maximum id. -/
theorem get_num_interval_resolution (snapshots : List SnapshotData) :
    (∀ a b : Nat, a ≠ 0 →
        get_num_interval snapshots (some a) (some b) = some (a, b)) ∧
    (∀ a : Nat, a ≠ 0 →
        get_num_interval snapshots (some a) none = some (a, 0)) ∧
    (∀ s, get_last_snapshot snapshots = some s →
        get_num_interval snapshots none none = some (s.id, 0) ∧
        get_num_interval snapshots (some 0) none = some (s.id, 0) ∧
        (∀ b : Nat, get_num_interval snapshots none (some b) = some (s.id, b)) ∧
        s ∈ snapshots ∧ ∀ t ∈ snapshots, t.id ≤ s.id) ∧
    (get_last_snapshot snapshots = none →
        ∀ np, get_num_interval snapshots none np = none) := by
  refine ⟨?_, ?_, ?_, ?_⟩
  · intro a b ha
    by_cases hb : b = 0 <;> simp [get_num_interval, truthy, ha, hb]
  · intro a ha
    simp [get_num_interval, truthy, ha]
  · intro s hs
    have hspec := get_last_snapshot_spec snapshots s hs
    refine ⟨?_, ?_, ?_, hspec.1, hspec.2⟩
    · simp [get_num_interval, truthy, hs]
    · simp [get_num_interval, truthy, hs]
    · intro b
      by_cases hb : b = 0 <;> simp [get_num_interval, truthy, hs, hb]
  · intro hn np
    simp [get_num_interval, truthy, hn]

/-- Concrete witness for claim C6: a truthy explicit pair is returned
verbatim, and the absent-absent case resolves to the maximal id. -/
theorem get_num_interval_resolution_witness :
    get_num_interval [snapFive] (some 7) (some 0) = some (7, 0) ∧
    get_num_interval [snapFive] none none = some (5, 0) := by
  have hlast : get_last_snapshot [snapFive] = some snapFive := by
    simp [get_last_snapshot, List.mergeSort]
  have h1 := (get_num_interval_resolution [snapFive]).1 7 0 (by decide)
  have h2 := ((get_num_interval_resolution [snapFive]).2.2.1 snapFive hlast).1
  exact ⟨h1, h2⟩

/-- Claim C5: get_jid_snapshots returns the pair of ids of the first
pre-typed and the first post-typed snapshot among those tagged with the
job id, without verifying uniqueness, and fails exactly when either of the
two filtered subsets is empty. -/
theorem get_jid_snapshots_first_match (snapshots : List SnapshotData)
    (jid : String) :
    (∀ p q : SnapshotData,
        ((jidFilter snapshots jid).filter (fun x => x.type == "pre")).head? =
          some p →
        ((jidFilter snapshots jid).filter (fun x => x.type == "post")).head? =
          some q →
        get_jid_snapshots snapshots jid = some (p.id, q.id)) ∧
    (get_jid_snapshots snapshots jid = none ↔
      (jidFilter snapshots jid).filter (fun x => x.type == "pre") = [] ∨
      (jidFilter snapshots jid).filter (fun x => x.type == "post") = []) := by
  constructor
  · intro p q hp hq
    unfold get_jid_snapshots
    rcases hP : (jidFilter snapshots jid).filter (fun x => x.type == "pre")
      with _ | ⟨p0, ps⟩
    · rw [hP] at hp; simp at hp
    · rcases hQ : (jidFilter snapshots jid).filter (fun x => x.type == "post")
        with _ | ⟨q0, qs⟩
      · rw [hQ] at hq; simp at hq
      · rw [hP] at hp
        rw [hQ] at hq
        simp at hp hq
        rw [hP, hQ, hp, hq]
  · rcases hP : (jidFilter snapshots jid).filter (fun x => x.type == "pre")
      with _ | ⟨p0, ps⟩ <;>
    rcases hQ : (jidFilter snapshots jid).filter (fun x => x.type == "post")
      with _ | ⟨q0, qs⟩ <;>
        unfold get_jid_snapshots <;> rw [hP, hQ] <;> simp

/-- A pre snapshot tagged with job id J1. -/
def taggedPreA : SnapshotData :=
  { id := 1, type := "pre", pre := none, timestamp := 0, user := "root",
    description := "", cleanup := "number", userdata := [("salt_jid", "J1")] }

/-- A second pre snapshot tagged with the same job id J1, exercising the
absence of a uniqueness check. -/
def taggedPreB : SnapshotData :=
  { id := 2, type := "pre", pre := none, timestamp := 0, user := "root",
    description := "", cleanup := "number", userdata := [("salt_jid", "J1")] }

/-- A post snapshot tagged with job id J1. -/
def taggedPost : SnapshotData :=
  { id := 3, type := "post", pre := some 1, timestamp := 0, user := "root",
    description := "", cleanup := "number", userdata := [("salt_jid", "J1")] }

/-- Concrete witness for claim C5: with two pre-typed and one post-typed
snapshot all tagged J1, the first pre id and the first post id are
returned, the duplicate tag being silently accepted. -/
theorem get_jid_snapshots_first_match_witness :
    get_jid_snapshots [taggedPreA, taggedPreB, taggedPost] "J1" =
      some (1, 3) :=
  (get_jid_snapshots_first_match [taggedPreA, taggedPreB, taggedPost] "J1").1
    taggedPreA taggedPost rfl rfl

/-- Helper: a truthy explicitly supplied interval is resolved verbatim. -/
theorem get_num_interval_explicit (snapshots : List SnapshotData)
    (pre post : Nat) (hpre : pre ≠ 0) :
    get_num_interval snapshots (some pre) (some post) = some (pre, post) := by
  by_cases hp : post = 0 <;> simp [get_num_interval, truthy, hpre, hp]

/-- The GetFiles answer of the end-to-end scenario: the service reports
path /etc/motd with status code 8 for the interval (19, 20). -/
def motdGetFiles : Nat → Nat → List (String × Int) :=
  fun p q => if p == 19 && q == 20 then [("/etc/motd", 8)] else []

/-- Claim C2, the code evaluated at the failing input: for interval
(19, 20) with the service reporting code 8 for /etc/motd, status keeps the
raw numeric code 8 instead of decoding it, although the module decoder
maps 8 to modified and unknown codes to unknown; changed_files does yield
the path list. The decoder status_to_string is defined by the module but
never applied by status. -/
theorem status_keeps_raw_code :
    status [] motdGetFiles (some 19) (some 20) = some [("/etc/motd", 8)] ∧
    changed_files [] motdGetFiles (some 19) (some 20) = some ["/etc/motd"] ∧
    status_to_string 8 = "modified" ∧
    status_to_string 99 = "unknown" :=
  ⟨rfl, rfl, rfl, rfl⟩

/-- Claim C4: when a nonempty requested file list is not a subset of the
changed set, undo raises a validation error carrying exactly the set
changed minus requested, as computed, and the external revert executor is
never invoked. -/
theorem undo_subset_validation (snapshots : List SnapshotData)
    (getFiles : Nat → Nat → List (String × Int)) (fs : List String)
    (pre post : Nat) (hpre : pre ≠ 0) (hfs : fs ≠ [])
    (hnot : ¬ (fs.toFinset ⊆
        ((statusDict (getFiles pre post)).map Prod.fst).toFinset)) :
    undo snapshots getFiles (some fs) (some pre) (some post) =
      some (UndoOutcome.validationError
        (((statusDict (getFiles pre post)).map Prod.fst).toFinset \
          fs.toFinset)) ∧
    ∀ a b r, undo snapshots getFiles (some fs) (some pre) (some post) ≠
      some (UndoOutcome.execute a b r) := by
  have hres := get_num_interval_explicit snapshots pre post hpre
  have h : undo snapshots getFiles (some fs) (some pre) (some post) =
      some (UndoOutcome.validationError
        (((statusDict (getFiles pre post)).map Prod.fst).toFinset \
          fs.toFinset)) := by
    simp [undo, status, hres, List.isEmpty_iff, hfs, hnot]
  refine ⟨h, ?_⟩
  intro a b r hcon
  rw [h] at hcon
  simp at hcon

/-- The GetFiles answer used by the undo witnesses: the service reports
path /a with status code 8 for the interval (19, 20). -/
def demoGetFiles : Nat → Nat → List (String × Int) :=
  fun p q => if p == 19 && q == 20 then [("/a", 8)] else []

/-- Concrete witness for claim C4: requesting /b when only /a changed
raises the validation error carrying the changed-minus-requested set. -/
theorem undo_subset_validation_witness :
    undo [] demoGetFiles (some ["/b"]) (some 19) (some 20) =
      some (UndoOutcome.validationError
        (((statusDict (demoGetFiles 19 20)).map Prod.fst).toFinset \
          (["/b"] : List String).toFinset)) :=
  (undo_subset_validation [] demoGetFiles ["/b"] 19 20 (by decide)
    (by decide) (by decide)).1

/-- Claim C10: an explicitly empty requested file list behaves exactly like
an absent argument: the requested set defaults to the whole changed set,
validation passes, and every changed file is passed to the executor. -/
theorem undo_empty_equals_absent (snapshots : List SnapshotData)
    (getFiles : Nat → Nat → List (String × Int)) (pre post : Nat)
    (hpre : pre ≠ 0) :
    undo snapshots getFiles (some []) (some pre) (some post) =
      undo snapshots getFiles none (some pre) (some post) ∧
    undo snapshots getFiles (some []) (some pre) (some post) =
      some (UndoOutcome.execute pre post
        (((statusDict (getFiles pre post)).map Prod.fst).toFinset)) := by
  have hres := get_num_interval_explicit snapshots pre post hpre
  constructor <;>
    simp [undo, status, hres, Finset.Subset.refl]

/-- Concrete witness for claim C10: with /a changed, an empty file list and
an absent file list both lead to one executor call covering /a. -/
theorem undo_empty_equals_absent_witness :
    undo [] demoGetFiles (some []) (some 19) (some 20) =
      undo [] demoGetFiles none (some 19) (some 20) ∧
    undo [] demoGetFiles (some []) (some 19) (some 20) =
      some (UndoOutcome.execute 19 20
        (((statusDict (demoGetFiles 19 20)).map Prod.fst).toFinset)) :=
  undo_empty_equals_absent [] demoGetFiles 19 20 (by decide)

/-- Claim C7: decoding a raw record with type index 2 yields type post and
a present pre field equal to the record field at position 2, while type
indices 0 and 1 yield types single and pre with no pre field set. -/
theorem snapshot_to_data_type_pre_field (resolveUser : Nat → Option String)
    (now : Int) (s : RawSnapshot) (d : SnapshotData)
    (h : snapshot_to_data resolveUser now s = some d) :
    (s.typeIdx = 2 → d.type = "post" ∧ d.pre = some s.preNum) ∧
    (s.typeIdx = 0 → d.type = "single" ∧ d.pre = none) ∧
    (s.typeIdx = 1 → d.type = "pre" ∧ d.pre = none) := by
  unfold snapshot_to_data at h
  rcases hu : resolveUser s.uid with _ | user <;> rw [hu] at h
  · rcases hg : typeNames.get? s.typeIdx with _ | ty <;> rw [hg] at h <;> simp at h
  · refine ⟨?_, ?_, ?_⟩ <;> intro ht <;> rw [ht] at h <;>
      simp [typeNames] at h <;> simp [← h]

/-- Concrete witness for claim C7: the post record of the test data decodes
to type post with pre field 42, and the pre record decodes with no pre
field. -/
theorem snapshot_to_data_type_pre_field_witness :
    ((RawSnapshot.mk 43 2 42 1457006572 0 "Blah Blah" "" []).typeIdx = 2) ∧
    ∃ d, snapshot_to_data (fun u => if u == 0 then some "root" else none) 0
        (RawSnapshot.mk 43 2 42 1457006572 0 "Blah Blah" "" []) = some d ∧
      d.type = "post" ∧ d.pre = some 42 := by
  refine ⟨rfl, ⟨SnapshotData.mk 43 "post" (some 42) 1457006572 "root" "Blah Blah" "" [], rfl, ?_⟩⟩
  have h := (snapshot_to_data_type_pre_field
    (fun u => if u == 0 then some "root" else none) 0
    (RawSnapshot.mk 43 2 42 1457006572 0 "Blah Blah" "" [])
    (SnapshotData.mk 43 "post" (some 42) 1457006572 "root" "Blah Blah" "" []) rfl).1 rfl
  exact h

/-- Claim C8: the default userdata mapping object is shared across calls.
After a first call that omits userdata and carries a salt job id, a second
call that also omits userdata forwards a mapping that still contains the
salt_jid entry written by the first call. -/
theorem create_snapshot_shared_default_userdata :
    (create_snapshot
        (create_snapshot (ModuleState.mk []) "pre" none none "number" none
          (some "20160607130930720112")).1
        "pre" none none "number" none none).2 =
      CreateOutcome.request (CreateRequest.pre none "number"
        [("salt_jid", "20160607130930720112")]) ∧
    List.lookup "salt_jid"
      [("salt_jid", "20160607130930720112")] = some "20160607130930720112" := by
  constructor
  · rfl
  · rfl

/-- A diff environment in which every path exists in the live tree and
every whole-file read raises. -/
def failingReadEnv : DiffEnv :=
  { isfile := fun _ => true
    readlines := fun _ => none
    is_text_file := fun _ => false
    mountRoot := fun n => if n == 2 then "/m2" else "/m3"
    unified_diff := fun _ _ _ _ => "" }

/-- Claim C1 counterexample: with snapshots 2 and 3 mounted and a read
error raised inside the per-file loop, diff propagates the exception
without issuing any unmount call: both mounts leak, because the unmount
calls of snapper.py lines 489 to 491 sit after the loop with no cleanup
handler. -/
theorem diff_error_leaks_mounts_cex :
    (diff failingReadEnv 2 3 ["/etc/motd"]).1 =
      [SnapperCall.mount 2, SnapperCall.mount 3] ∧
    (diff failingReadEnv 2 3 ["/etc/motd"]).2 =
      Except.error "/m2/etc/motd" ∧
    SnapperCall.umount 2 ∉ (diff failingReadEnv 2 3 ["/etc/motd"]).1 ∧
    SnapperCall.umount 3 ∉ (diff failingReadEnv 2 3 ["/etc/motd"]).1 := by
  refine ⟨rfl, rfl, ?_, ?_⟩ <;> decide

/-- Claim C1 as amended: the unmount calls are issued only on the normal
path. Whenever the per-file loop completes without raising, diff unmounts
pre and, when the resolved post is nonzero, also post, before returning;
when an exception is raised inside the loop the trace stops at the mounts
and they leak. -/
theorem diff_unmount_on_success (env : DiffEnv) (pre post : Nat)
    (files : List String) (d : List (String × String))
    (h : (diff env pre post files).2 = Except.ok d) :
    SnapperCall.umount pre ∈ (diff env pre post files).1 ∧
    (post ≠ 0 → SnapperCall.umount post ∈ (diff env pre post files).1) := by
  by_cases hp : post = 0
  · subst hp
    rcases hl : diffLoop env (env.mountRoot pre) ""
        (files.filter env.isfile) [] with e | fd
    · have hbad : (diff env pre 0 files).2 = Except.error e := by
        simp [diff, hl]
      rw [hbad] at h
      cases h
    · have h1 : (diff env pre 0 files).1 =
          [SnapperCall.mount pre, SnapperCall.umount pre] := by
        simp [diff, hl]
      rw [h1]
      exact ⟨by simp, fun hc => absurd rfl hc⟩
  · rcases hl : diffLoop env (env.mountRoot pre) (env.mountRoot post)
        (files.filter env.isfile) [] with e | fd
    · have hbad : (diff env pre post files).2 = Except.error e := by
        simp [diff, hl, hp]
      rw [hbad] at h
      cases h
    · have h1 : (diff env pre post files).1 =
          [SnapperCall.mount pre, SnapperCall.mount post,
           SnapperCall.umount pre, SnapperCall.umount post] := by
        simp [diff, hl, hp]
      rw [h1]
      exact ⟨by simp, fun _ => by simp⟩

/-- A diff environment in which the single candidate file is read
successfully on both sides. -/
def succeedingReadEnv : DiffEnv :=
  { isfile := fun _ => true
    readlines := fun _ => some []
    is_text_file := fun _ => true
    mountRoot := fun _ => "/m"
    unified_diff := fun _ _ _ _ => "" }

/-- Concrete witness for claim C1 as amended: a loop that completes
normally is followed by both unmount calls. -/
theorem diff_unmount_on_success_witness :
    SnapperCall.umount 2 ∈ (diff succeedingReadEnv 2 3 ["/f"]).1 ∧
    SnapperCall.umount 3 ∈ (diff succeedingReadEnv 2 3 ["/f"]).1 := by
  have h := diff_unmount_on_success succeedingReadEnv 2 3 ["/f"]
    [("/f", "")] rfl
  exact ⟨h.1, h.2 (by decide)⟩

/-- A diff environment for a file that exists in the live tree but on
neither the pre nor the post side: the mount prefixes are 5/ and 7/ and
only the bare path exists; the unified diff model renders equal contents
as the empty string, as difflib does. -/
def bothAbsentEnv : DiffEnv :=
  { isfile := fun p => p == "/f"
    readlines := fun _ => some ["x"]
    is_text_file := fun _ => false
    mountRoot := fun n => if n == 5 then "5/" else "7/"
    unified_diff := fun a b _ _ => if a == b then "" else "changed" }

/-- Claim C3 counterexample: a candidate path present in the live tree but
absent on both the pre and the post side is not omitted from the result:
both contents are treated as empty, the branch for an empty post content
fires, and an entry mapping the path to the empty diff appears in the
returned mapping. -/
theorem diff_absent_both_sides_cex :
    bothAbsentEnv.isfile ("5/" ++ "/f") = false ∧
    bothAbsentEnv.isfile ("7/" ++ "/f") = false ∧
    (diff bothAbsentEnv 5 7 ["/f"]).2 = Except.ok [("/f", "")] ∧
    (match (diff bothAbsentEnv 5 7 ["/f"]).2 with
     | Except.ok d => d.lookup "/f"
     | Except.error _ => none) = some "" := by
  refine ⟨rfl, rfl, rfl, rfl⟩

/-- Claim C3 as amended: a candidate path that exists in the live tree but
whose content is absent on both the pre and the post side is not omitted:
diff returns an entry for it, mapping the path to the unified diff of two
empty contents, which difflib renders as the empty string. -/
theorem diff_absent_both_sides (env : DiffEnv) (pre post : Nat) (f : String)
    (hpost : post ≠ 0) (hlive : env.isfile f = true)
    (hpre : env.isfile (env.mountRoot pre ++ f) = false)
    (hpostf : env.isfile (env.mountRoot post ++ f) = false) :
    (diff env pre post [f]).2 =
      Except.ok [(f, env.unified_diff [] []
        (env.mountRoot pre ++ f) (env.mountRoot post ++ f))] := by
  have hp2 : (post != 0) = true := by simpa using hpost
  simp [diff, diffLoop, diffRead, dictInsert, hp2, hlive, hpre, hpostf]

/-- Concrete witness for claim C3 as amended: the both-absent file of the
counterexample environment receives exactly the empty diff entry. -/
theorem diff_absent_both_sides_witness :
    (diff bothAbsentEnv 5 7 ["/f"]).2 =
      Except.ok [("/f", bothAbsentEnv.unified_diff [] []
        (bothAbsentEnv.mountRoot 5 ++ "/f")
        (bothAbsentEnv.mountRoot 7 ++ "/f"))] :=
  diff_absent_both_sides bothAbsentEnv 5 7 "/f" (by decide) rfl rfl rfl

/-- Claim C9: when the wrapped function raises, run has already created the
pre snapshot, creates no post snapshot afterwards, and lets the exception
propagate: the pre and post bracketing is not exception-safe and leaves an
unpaired pre snapshot behind. -/
theorem run_error_unpaired_pre (st : RunState)
    (fn : RunState → RunState × Except String Nat) (e : String)
    (herr : (fn (runPreState st)).2 = Except.error e) :
    run st fn = ((fn (runPreState st)).1, Except.error e) ∧
    (runPreState st).created = st.created ++ [(st.nextNr, "pre", none)] ∧
    ((fn (runPreState st)).1.created = (runPreState st).created →
      (run st fn).1.created = st.created ++ [(st.nextNr, "pre", none)]) := by
  have hr : run st fn = ((fn (runPreState st)).1, Except.error e) := by
    unfold run
    rcases hfn : fn (runPreState st) with ⟨st2, res⟩
    rw [hfn] at herr
    simp at herr
    rw [herr]
  refine ⟨hr, rfl, ?_⟩
  intro hkeep
  rw [hr]
  rw [hkeep]
  rfl

/-- Concrete witness for claim C9: a wrapped function that raises without
touching the state leaves exactly one unpaired pre snapshot behind and the
error is propagated. -/
theorem run_error_unpaired_pre_witness :
    run (RunState.mk 1 []) (fun s => (s, Except.error "boom")) =
      (RunState.mk 2 [(1, "pre", none)], Except.error "boom") := by
  have h := run_error_unpaired_pre (RunState.mk 1 [])
    (fun s => (s, Except.error "boom")) "boom" rfl
  exact h.1.trans rfl

end Snapper
